import Mathlib

/-!
Verification of the payment-webhook backend (`server.js` and its drafts).

The development shallowly embeds the code of the Express backend:

* the signature verifier of `POST /api/razorpay/webhook`
  (`crypto.createHmac("sha256", secret).update(req.body).digest("hex")`
  compared with the `x-razorpay-signature` header) — HMAC-SHA256 is
  implemented concretely over byte lists (`Nat` values, bytes kept below
  256 by construction);
* the webhook event processing: email extraction from the payload,
  the Razorpay payment-link fetch fallback, the amount classification
  (7900 paise → timed entitlement upsert into `PaidUser`,
  4900 paise → append into `EmergencyUnlock`), and the final response;
* the Mongo-backed store: `PaidUser.findOneAndUpdate(..., upsert:true)`
  and `EmergencyUnlock.create` over lists of records (mongoose strict
  mode keeps only the schema's fields);
* the read path `GET /api/check-payment-status`.

External runtime primitives that are not code of this repository
(`JSON.parse`, `razorpay.paymentLink.fetch`) enter as explicit oracle
parameters of the handler; `crypto`'s HMAC is implemented for real.
-/

/-! ## Bytes, 32-bit words, SHA-256, HMAC (the `crypto` calls) -/

/-- Addition of 32-bit words, reduced modulo 2^32. -/
def wadd (x y : Nat) : Nat := (x + y) % 4294967296

/-- Bitwise complement on 32-bit words (values below 2^32). -/
def wnot (x : Nat) : Nat := Nat.xor x 4294967295

/-- Right rotation of a 32-bit word by `n` places. -/
def rotr32 (n x : Nat) : Nat :=
  (Nat.lor (Nat.shiftRight x n) (Nat.shiftLeft x (32 - n))) % 4294967296

/-- SHA-256 choice function. -/
def chF (x y z : Nat) : Nat := Nat.xor (Nat.land x y) (Nat.land (wnot x) z)

/-- SHA-256 majority function. -/
def majF (x y z : Nat) : Nat :=
  Nat.xor (Nat.xor (Nat.land x y) (Nat.land x z)) (Nat.land y z)

/-- SHA-256 big sigma 0. -/
def bigS0 (x : Nat) : Nat := Nat.xor (Nat.xor (rotr32 2 x) (rotr32 13 x)) (rotr32 22 x)

/-- SHA-256 big sigma 1. -/
def bigS1 (x : Nat) : Nat := Nat.xor (Nat.xor (rotr32 6 x) (rotr32 11 x)) (rotr32 25 x)

/-- SHA-256 small sigma 0. -/
def smallS0 (x : Nat) : Nat :=
  Nat.xor (Nat.xor (rotr32 7 x) (rotr32 18 x)) (Nat.shiftRight x 3)

/-- SHA-256 small sigma 1. -/
def smallS1 (x : Nat) : Nat :=
  Nat.xor (Nat.xor (rotr32 17 x) (rotr32 19 x)) (Nat.shiftRight x 10)

/-- The 64 SHA-256 round constants. -/
def K256 : List Nat :=
  [1116352408, 1899447441, 3049323471, 3921009573, 961987163,
   1508970993, 2453635748, 2870763221, 3624381080, 310598401,
   607225278, 1426881987, 1925078388, 2162078206, 2614888103,
   3248222580, 3835390401, 4022224774, 264347078, 604807628,
   770255983, 1249150122, 1555081692, 1996064986, 2554220882,
   2821834349, 2952996808, 3210313671, 3336571891, 3584528711,
   113926993, 338241895, 666307205, 773529912, 1294757372,
   1396182291, 1695183700, 1986661051, 2177026350, 2456956037,
   2730485921, 2820302411, 3259730800, 3345764771, 3516065817,
   3600352804, 4094571909, 275423344, 430227734, 506948616,
   659060556, 883997877, 958139571, 1322822218, 1537002063,
   1747873779, 1955562222, 2024104815, 2227730452, 2361852424,
   2428436474, 2756734187, 3204031479, 3329325298]

/-- State of the SHA-256 compression function: eight 32-bit words. -/
structure HState where
  a : Nat
  b : Nat
  c : Nat
  d : Nat
  e : Nat
  f : Nat
  g : Nat
  h : Nat
deriving DecidableEq, Repr

/-- Initial SHA-256 chaining value. -/
def initHState : HState :=
  ⟨1779033703, 3144134277, 1013904242, 2773480762,
   1359893119, 2600822924, 528734635, 1541459225⟩

/-- Big-endian 32-bit words from a byte list, four bytes per word. -/
def bytesToWords : List Nat → List Nat
  | b0 :: b1 :: b2 :: b3 :: rest =>
      (((b0 * 256 + b1) * 256 + b2) * 256 + b3) :: bytesToWords rest
  | _ => []

/-- Extend the 16 words of a block to the 64-entry SHA-256 message schedule. -/
def schedule (ws : List Nat) : List Nat :=
  (List.range 48).foldl
    (fun acc _ =>
      let n := acc.length
      acc ++ [wadd (wadd (smallS1 (acc.getD (n - 2) 0)) (acc.getD (n - 7) 0))
                   (wadd (smallS0 (acc.getD (n - 15) 0)) (acc.getD (n - 16) 0))])
    ws

/-- One SHA-256 round, taking the round constant paired with a schedule word. -/
def sha256Round (st : HState) (kw : Nat × Nat) : HState :=
  let t1 := wadd st.h (wadd (bigS1 st.e) (wadd (chF st.e st.f st.g) (wadd kw.1 kw.2)))
  let t2 := wadd (bigS0 st.a) (majF st.a st.b st.c)
  { a := wadd t1 t2, b := st.a, c := st.b, d := st.c,
    e := wadd st.d t1, f := st.e, g := st.f, h := st.g }

/-- Compress one 64-byte block into the chaining state. -/
def compressBlock (st : HState) (block : List Nat) : HState :=
  let ws := schedule (bytesToWords block)
  let fin := (K256.zip ws).foldl sha256Round st
  { a := wadd st.a fin.a, b := wadd st.b fin.b, c := wadd st.c fin.c,
    d := wadd st.d fin.d, e := wadd st.e fin.e, f := wadd st.f fin.f,
    g := wadd st.g fin.g, h := wadd st.h fin.h }

/-- Big-endian 8-byte rendering of the 64-bit message-length field. -/
def be64 (n : Nat) : List Nat :=
  [n / 72057594037927936 % 256, n / 281474976710656 % 256,
   n / 1099511627776 % 256, n / 4294967296 % 256,
   n / 16777216 % 256, n / 65536 % 256, n / 256 % 256, n % 256]

/-- SHA-256 padding for a message of `len` bytes: 0x80, zeros, 64-bit bit length. -/
def sha256Pad (len : Nat) : List Nat :=
  128 :: (List.replicate ((64 - (len + 9) % 64) % 64) 0 ++ be64 (len * 8))

/-- Split a byte list into 64-byte blocks. -/
def toBlocks : List Nat → List (List Nat)
  | [] => []
  | x :: rest => ((x :: rest).take 64) :: toBlocks ((x :: rest).drop 64)
termination_by l => l.length
decreasing_by simp [List.length_drop]; omega

/-- Big-endian bytes of one 32-bit word. -/
def word32BytesBE (w : Nat) : List Nat :=
  [w / 16777216 % 256, w / 65536 % 256, w / 256 % 256, w % 256]

/-- Digest bytes of a final chaining state: 32 bytes. -/
def digestBytes (st : HState) : List Nat :=
  word32BytesBE st.a ++ word32BytesBE st.b ++ word32BytesBE st.c ++
  word32BytesBE st.d ++ word32BytesBE st.e ++ word32BytesBE st.f ++
  word32BytesBE st.g ++ word32BytesBE st.h

/-- SHA-256 of a byte list. -/
def sha256 (msg : List Nat) : List Nat :=
  digestBytes ((toBlocks (msg ++ sha256Pad msg.length)).foldl compressBlock initHState)

/-- HMAC-SHA256 over byte lists (RFC 2104 with a 64-byte block). -/
def hmacSha256 (key msg : List Nat) : List Nat :=
  let k0 := if 64 < key.length then sha256 key else key
  let kp := k0 ++ List.replicate (64 - k0.length) 0
  let ip := kp.map (fun b => Nat.xor b 54)
  let op := kp.map (fun b => Nat.xor b 92)
  sha256 (op ++ sha256 (ip ++ msg))

/-- The sixteen lowercase hexadecimal digit characters. -/
def hexChars : List Char := "0123456789abcdef".toList

/-- Lowercase hex digit for a value (reduced modulo 16). -/
def hexDigit (n : Nat) : Char := hexChars.getD (n % 16) '0'

/-- Two lowercase hex characters of one byte. -/
def byteToHex (b : Nat) : List Char := [hexDigit (b / 16), hexDigit b]

/-- Lowercase hex string of a byte list, as `digest("hex")` renders it. -/
def bytesToHex (bs : List Nat) : String := String.mk ((bs.map byteToHex).flatten)

/-- UTF-8 bytes of a string (the secret enters the HMAC as its UTF-8 bytes). -/
def strBytes (s : String) : List Nat := s.toUTF8.toList.map (fun b => b.toNat)

/-- Embeds `crypto.createHmac("sha256", secret).update(rawBody).digest("hex")`. -/
def hmacSha256Hex (secret : String) (rawBody : List Nat) : String :=
  bytesToHex (hmacSha256 (strBytes secret) rawBody)

/-- Embeds the webhook's signature check: the handler rejects unless the
`x-razorpay-signature` header (absent headers modelled as `none`) is exactly
the expected lowercase hex digest (`receivedSignature !== expectedSignature`). -/
def verifySignature (secret : String) (rawBody : List Nat)
    (sigHeader : Option String) : Bool :=
  sigHeader == some (hmacSha256Hex secret rawBody)

/-! ## Payload model

`WebhookBody` holds exactly the fields the webhook handler reads from the
parsed JSON. Optional chaining (`payment?.entity?.email`) is modelled with
`Option`; `payment` stands for `payload.payment?.entity` and `payment_link`
for `payload.payment_link?.entity` (one `Option` for the two chained hops).
JS string truthiness (`undefined`/`null`/`""` are falsy) is `truthy`. -/

/-- Truthiness of a JS string-or-nullish value. -/
def truthy : Option String → Bool
  | none => false
  | some s => !(s == "")

/-- The JS `a || b` on string-or-nullish values: `a` when truthy, else `b`. -/
def jsOr (a b : Option String) : Option String := if truthy a then a else b

/-- JS `s.toLowerCase()` (ASCII case mapping, the range emails use). -/
def jsToLower (s : String) : String := String.mk (s.toList.map Char.toLower)

/-- JS `s.trim()`: drop whitespace from both ends. -/
def jsTrim (s : String) : String :=
  String.mk (((s.toList.dropWhile Char.isWhitespace).reverse.dropWhile
    Char.isWhitespace).reverse)

/-- Does `l` contain `pat` as a contiguous subsequence? -/
def listContainsSeq (pat : List Char) : List Char → Bool
  | [] => pat.isEmpty
  | c :: rest => pat.isPrefixOf (c :: rest) || listContainsSeq pat rest

/-- JS `s.includes(pat)`: contiguous (case-sensitive) substring test. -/
def jsIncludes (s pat : String) : Bool := listContainsSeq pat.toList s.toList

/-- `includes` lifted to an optional receiver (only called on truthy values). -/
def jsIncludesOpt : Option String → String → Bool
  | none, _ => false
  | some s, pat => jsIncludes s pat

/-- Fields read from `body.payload.payment?.entity`. -/
structure PaymentEntity where
  email : Option String
  amount : Option Int
  id : Option String
deriving DecidableEq, Repr

/-- Fields read from `body.payload.payment_link?.entity?.customer`. -/
structure CustomerEntity where
  email : Option String
deriving DecidableEq, Repr

/-- Fields of `body.payload.payment_link?.entity`. The handler never reads
`amount` from here; the field is carried to state that fact. -/
structure PaymentLinkEntity where
  customer : Option CustomerEntity
  email : Option String
  id : Option String
  amount : Option Int
deriving DecidableEq, Repr

/-- The `body.payload` object. -/
structure Payload where
  payment : Option PaymentEntity
  payment_link : Option PaymentLinkEntity
deriving DecidableEq, Repr

/-- A parsed webhook body. `payload = none` models a body without a `payload`
object: accessing `body.payload.payment` then throws. -/
structure WebhookBody where
  event : Option String
  payload : Option Payload
deriving DecidableEq, Repr

/-- Result of `razorpay.paymentLink.fetch(linkId)`: the handler reads only
`linkDetails.customer?.email`. -/
structure FetchedLink where
  customer : Option CustomerEntity
deriving DecidableEq, Repr

/-! ## Store model (mongoose collections) -/

/-- A `PaidUser` document: the fields of `PaidUserSchema`
(`email` unique, `paidAt`, `expiresAt` optional, `amount`).
Times are milliseconds since the epoch. -/
structure PaidUserRec where
  email : String
  paidAt : Nat
  expiresAt : Option Nat
  amount : Int
deriving DecidableEq, Repr

/-- An `EmergencyUnlock` document: exactly the fields of `EmergencySchema`
(`email`, `amount`, `paidAt`). Mongoose strict mode (the default) drops any
other field passed to `create`. -/
structure EmergencyRec where
  email : String
  amount : Int
  paidAt : Nat
deriving DecidableEq, Repr

/-- The whole document object passed to `EmergencyUnlock.create` at the 4900
branch of the webhook, before the schema filters it. -/
structure EmergencyCreateArgs where
  email : String
  amount : Int
  status : String
  used : Bool
  razorpay_payment_id : Option String
  razorpay_link_id : Option String
deriving DecidableEq, Repr

/-- The two collections of the persistence layer. -/
structure Store where
  paidUsers : List PaidUserRec
  emergencyUnlocks : List EmergencyRec
deriving DecidableEq, Repr

/-- Embeds `PaidUser.findOneAndUpdate({email}, {$set:{paidAt, expiresAt,
amount}}, {upsert:true})`: replace the fields of the first document matching
`email` (the unique index allows at most one), or insert a new document. -/
def upsertPaidUser (l : List PaidUserRec) (email : String) (paidAt : Nat)
    (expiresAt : Nat) (amount : Int) : List PaidUserRec :=
  match l with
  | [] => [{ email := email, paidAt := paidAt, expiresAt := some expiresAt, amount := amount }]
  | r :: rs =>
    if r.email = email then
      { r with paidAt := paidAt, expiresAt := some expiresAt, amount := amount } :: rs
    else
      r :: upsertPaidUser rs email paidAt expiresAt amount

/-- Embeds `EmergencyUnlock.create(args)`: appends a document holding only
the schema's fields (`email`, `amount`, `paidAt`, the latter from its
`Date.now` default); mongoose strict mode silently drops `status`, `used`,
`razorpay_payment_id` and `razorpay_link_id`, which `EmergencySchema` does
not declare. -/
def emergencyCreate (l : List EmergencyRec) (args : EmergencyCreateArgs)
    (now : Nat) : List EmergencyRec :=
  l ++ [{ email := args.email, amount := args.amount, paidAt := now }]

/-- Embeds `PaidUser.findOne({email})`: first document with that email. -/
def findPaidUser : List PaidUserRec → String → Option PaidUserRec
  | [], _ => none
  | r :: rs, email => if r.email = email then some r else findPaidUser rs email

/-! ## The webhook handler -/

/-- The handler's possible responses. `thrown` marks an uncaught exception
escaping the async handler (no HTTP response is produced). -/
inductive HResp where
  | ok
  | badSignature
  | badJson
  | thrown
deriving DecidableEq, Repr

/-- HTTP status code of a response; `none` for an uncaught exception. -/
def statusCode : HResp → Option Nat
  | .ok => some 200
  | .badSignature => some 400
  | .badJson => some 400
  | .thrown => none

/-- Response and post-state of one webhook delivery. -/
structure Outcome where
  resp : HResp
  store : Store
deriving DecidableEq, Repr

/-- Embeds lines 266–273: `body.payload.payment?.entity?.email ||
body.payload.payment_link?.entity?.customer?.email ||
body.payload.payment_link?.entity?.email || null`. -/
def extractEmail (pl : Payload) : Option String :=
  jsOr (pl.payment.bind (fun p => p.email))
    (jsOr (pl.payment_link.bind (fun le => le.customer.bind (fun c => c.email)))
      (jsOr (pl.payment_link.bind (fun le => le.email)) none))

/-- Embeds `const amount = body.payload.payment?.entity?.amount`. -/
def extractAmount (pl : Payload) : Option Int :=
  pl.payment.bind (fun p => p.amount)

/-- Embeds `const linkId = body.payload.payment_link?.entity?.id`. -/
def extractLinkId (pl : Payload) : Option String :=
  pl.payment_link.bind (fun le => le.id)

/-- The guard of the API fallback, line 281:
`(!email || email.includes("razorpay.com")) && linkId`. -/
def fallbackCond (email linkId : Option String) : Bool :=
  (!(truthy email) || jsIncludesOpt email "razorpay.com") && truthy linkId

/-- Embeds lines 281–302, the Razorpay API fallback: when the guard holds the
handler fetches the link; on success the email is replaced by
`linkDetails.customer?.email || null` (even by `null`), on a fetch error the
email keeps its extracted value and processing continues. -/
def resolveEmail (fetchLink : String → Except Unit FetchedLink)
    (email0 linkId : Option String) : Option String :=
  if fallbackCond email0 linkId then
    match linkId with
    | some lid =>
      match fetchLink lid with
      | .ok d => jsOr (d.customer.bind (fun c => c.email)) none
      | .error _ => email0
    | none => email0
  else email0

/-- Embeds lines 266–355, the processing of a `payment_link.paid` event:
extraction, fallback, the save guard
`email && !email.includes("razorpay.com") && amount !== undefined &&
amount !== null`, and the amount classification (7900 → `PaidUser` upsert
with `expiresAt = now + 30 days`; 4900 → `EmergencyUnlock.create`;
anything else → no write). Always acknowledges with `{status:"ok"}`. -/
def processPaid (fetchLink : String → Except Unit FetchedLink) (pl : Payload)
    (now : Nat) (store : Store) : Outcome :=
  let email0 := extractEmail pl
  let amount := extractAmount pl
  let linkId := extractLinkId pl
  let email := resolveEmail fetchLink email0 linkId
  if truthy email && !(jsIncludesOpt email "razorpay.com") && amount.isSome then
    let cleanedEmail := jsTrim (jsToLower (email.getD ""))
    if amount = some 7900 then
      { resp := .ok,
        store := { store with
          paidUsers := upsertPaidUser store.paidUsers cleanedEmail now
            (now + 30 * 24 * 60 * 60 * 1000) 7900 } }
    else if amount = some 4900 then
      { resp := .ok,
        store := { store with
          emergencyUnlocks := emergencyCreate store.emergencyUnlocks
            { email := cleanedEmail, amount := 4900, status := "paid",
              used := false,
              razorpay_payment_id := jsOr (pl.payment.bind (fun p => p.id)) none,
              razorpay_link_id := jsOr (pl.payment_link.bind (fun le => le.id)) none }
            now } }
    else { resp := .ok, store := store }
  else { resp := .ok, store := store }

/-- Embeds lines 262–358 after the signature check: any event other than
`payment_link.paid` is acknowledged without processing; for a paid event a
missing `payload` object makes the unguarded `body.payload.payment` access
throw. -/
def handleEvent (fetchLink : String → Except Unit FetchedLink)
    (body : WebhookBody) (now : Nat) (store : Store) : Outcome :=
  if body.event = some "payment_link.paid" then
    match body.payload with
    | none => { resp := .thrown, store := store }
    | some pl => processPaid fetchLink pl now store
  else { resp := .ok, store := store }

/-- Embeds `POST /api/razorpay/webhook` (lines 230–359). `parseJson` stands
for `JSON.parse` on the raw bytes (`none` = parse exception → 400) and
`fetchLink` for `razorpay.paymentLink.fetch`. A missing
`RAZORPAY_WEBHOOK_SECRET` (`secret = none`) makes
`crypto.createHmac("sha256", undefined)` throw before any check. -/
def razorpayWebhook (parseJson : List Nat → Option WebhookBody)
    (fetchLink : String → Except Unit FetchedLink)
    (secret : Option String) (sigHeader : Option String)
    (rawBody : List Nat) (now : Nat) (store : Store) : Outcome :=
  match secret with
  | none => { resp := .thrown, store := store }
  | some s =>
    if verifySignature s rawBody sigHeader then
      match parseJson rawBody with
      | none => { resp := .badJson, store := store }
      | some body => handleEvent fetchLink body now store
    else { resp := .badSignature, store := store }

/-! ## The status read path -/

/-- Responses of `GET /api/check-payment-status`. -/
inductive PayStatus where
  | missingEmail
  | pending
  | expired
  | paid (expiresAt : Option Nat)
deriving DecidableEq, Repr

/-- Embeds `GET /api/check-payment-status` (lines 365–382): normalizes the
query email (`email?.toLowerCase().trim()`, falsy → `missing_email`), looks
up `PaidUser.findOne({email})`, and computes expiry against the query-time
clock (`user.expiresAt && user.expiresAt < Date.now()`; a present `Date` is
always truthy). The route only reads; the store is returned unchanged. -/
def checkPaymentStatus (store : Store) (emailQ : Option String)
    (now : Nat) : PayStatus × Store :=
  match emailQ with
  | none => (.missingEmail, store)
  | some raw =>
    let email := jsTrim (jsToLower raw)
    if email = "" then (.missingEmail, store)
    else
      match findPaidUser store.paidUsers email with
      | none => (.pending, store)
      | some u =>
        if (match u.expiresAt with
            | some x => decide (x < now)
            | none => false) then (.expired, store)
        else (.paid u.expiresAt, store)

/-! ## Helper lemmas -/

/-- A list lookup with default is an element of the list or the default. -/
theorem getD_mem_or (l : List Char) (n : Nat) (d : Char) :
    l.getD n d ∈ l ∨ l.getD n d = d := by
  induction l generalizing n with
  | nil => exact Or.inr (by cases n <;> rfl)
  | cons c cs ih =>
    cases n with
    | zero => exact Or.inl (by simp [List.getD])
    | succ m =>
      have hstep : (c :: cs).getD (m + 1) d = cs.getD m d := by simp [List.getD]
      rw [hstep]
      rcases ih m with h | h
      · exact Or.inl (List.mem_cons_of_mem c h)
      · exact Or.inr h

/-- Every rendered hex digit is one of the sixteen lowercase characters. -/
theorem hexDigit_mem (n : Nat) : hexDigit n ∈ hexChars := by
  unfold hexDigit
  rcases getD_mem_or hexChars (n % 16) '0' with h | h
  · exact h
  · rw [h]; decide

/-- Characters of a hex rendering lie in the lowercase hex alphabet. -/
theorem bytesToHex_chars (bs : List Nat) :
    ∀ c ∈ (bytesToHex bs).toList, c ∈ hexChars := by
  intro c hc
  have hrw : (bytesToHex bs).toList = (bs.map byteToHex).flatten := rfl
  rw [hrw] at hc
  rcases List.mem_flatten.mp hc with ⟨l, hl, hcl⟩
  rcases List.mem_map.mp hl with ⟨b, _, rfl⟩
  simp only [byteToHex, List.mem_cons, List.not_mem_nil, or_false] at hcl
  rcases hcl with rfl | rfl
  · exact hexDigit_mem (b / 16)
  · exact hexDigit_mem b

/-- A hex rendering has two characters per byte. -/
theorem bytesToHex_length (bs : List Nat) :
    (bytesToHex bs).toList.length = 2 * bs.length := by
  have hrw : (bytesToHex bs).toList = (bs.map byteToHex).flatten := rfl
  rw [hrw]
  clear hrw
  induction bs with
  | nil => rfl
  | cons b rest ih => simp only [List.map_cons, List.flatten_cons,
      List.length_append, List.length_cons, List.length_nil, ih, byteToHex]; omega

/-- A SHA-256 digest has 32 bytes. -/
theorem sha256_length (m : List Nat) : (sha256 m).length = 32 := by
  simp [sha256, digestBytes, word32BytesBE]

/-- An HMAC-SHA256 tag has 32 bytes. -/
theorem hmacSha256_length (key msg : List Nat) : (hmacSha256 key msg).length = 32 := by
  simp [hmacSha256, sha256_length]

/-- Decidable rendering-shape check: 64 characters, all lowercase hex. -/
def isLowerHex (s : String) : Bool :=
  (s.toList.length == 64) && s.toList.all (fun c => hexChars.contains c)

/-- The expected signature is rendered as a 64-character lowercase hex string. -/
theorem hmacSha256Hex_lowerHex (s : String) (rawBody : List Nat) :
    isLowerHex (hmacSha256Hex s rawBody) = true := by
  have h1 : (hmacSha256Hex s rawBody).length = 64 := by
    have h := bytesToHex_length (hmacSha256 (strBytes s) rawBody)
    rw [hmacSha256_length] at h
    simpa [hmacSha256Hex] using h
  have h2 : ∀ c ∈ (hmacSha256Hex s rawBody).toList, c ∈ hexChars :=
    bytesToHex_chars (hmacSha256 (strBytes s) rawBody)
  unfold isLowerHex
  rw [Bool.and_eq_true]
  constructor
  · simp [h1]
  · rw [List.all_eq_true]
    intro c hc
    exact List.elem_eq_true_of_mem (h2 c hc)

/-! ## The claims -/

/-- Claim C4: signature verification accepts exactly the correct signature —
presenting the lowercase hex rendering of HMAC-SHA256(secret, body) succeeds,
presenting any other string (or no header) fails, and the expected value is
indeed a 64-character lowercase hex string. -/
theorem claim_C4_signature_exactness (s : String) (rawBody : List Nat) (sig : String) :
    verifySignature s rawBody (some (hmacSha256Hex s rawBody)) = true
    ∧ (verifySignature s rawBody (some sig) = true ↔ sig = hmacSha256Hex s rawBody)
    ∧ verifySignature s rawBody none = false
    ∧ isLowerHex (hmacSha256Hex s rawBody) = true := by
  refine ⟨?_, ?_, ?_, hmacSha256Hex_lowerHex s rawBody⟩
  · simp [verifySignature]
  · simp [verifySignature]
  · simp [verifySignature]

/-- Claim C2: a webhook request whose signature header differs from the HMAC
of the raw body gets a 400 response and no further processing — the store is
untouched and the outcome does not depend on the body parser or on the
remote fetch, i.e. neither ever runs. -/
theorem claim_C2_bad_signature_fail_closed
    (p1 p2 : List Nat → Option WebhookBody)
    (f1 f2 : String → Except Unit FetchedLink)
    (s : String) (sig : Option String) (rawBody : List Nat) (now : Nat)
    (store : Store) (h : sig ≠ some (hmacSha256Hex s rawBody)) :
    razorpayWebhook p1 f1 (some s) sig rawBody now store
      = { resp := .badSignature, store := store }
    ∧ statusCode (razorpayWebhook p1 f1 (some s) sig rawBody now store).resp = some 400
    ∧ razorpayWebhook p1 f1 (some s) sig rawBody now store
      = razorpayWebhook p2 f2 (some s) sig rawBody now store := by
  have hv : verifySignature s rawBody sig = false := by
    simp [verifySignature, h]
  refine ⟨?_, ?_, ?_⟩ <;> simp [razorpayWebhook, hv, statusCode]

/-- Witness for C2 at a concrete request (header absent, so it cannot match). -/
theorem claim_C2_witness :
    razorpayWebhook (fun _ => some ⟨some "payment_link.paid", none⟩)
        (fun _ => .error ()) (some "sec") none [1, 2] 7 ⟨[], []⟩
      = { resp := .badSignature, store := ⟨[], []⟩ }
    ∧ statusCode (razorpayWebhook (fun _ => some ⟨some "payment_link.paid", none⟩)
        (fun _ => .error ()) (some "sec") none [1, 2] 7 ⟨[], []⟩).resp = some 400
    ∧ razorpayWebhook (fun _ => some ⟨some "payment_link.paid", none⟩)
        (fun _ => .error ()) (some "sec") none [1, 2] 7 ⟨[], []⟩
      = razorpayWebhook (fun _ => none)
        (fun _ => .ok ⟨none⟩) (some "sec") none [1, 2] 7 ⟨[], []⟩ :=
  claim_C2_bad_signature_fail_closed
    (fun _ => some ⟨some "payment_link.paid", none⟩) (fun _ => none)
    (fun _ => .error ()) (fun _ => .ok ⟨none⟩)
    "sec" none [1, 2] 7 ⟨[], []⟩ (by simp)

/-- Claim C8 is refuted at this input: with the webhook secret missing, the
handler does not answer 400 — `crypto.createHmac("sha256", undefined)`
throws, the exception escapes the async handler, and no response is sent. -/
theorem claim_C8_counterexample :
    (razorpayWebhook (fun _ => some ⟨some "payment_link.paid", none⟩)
        (fun _ => .error ()) none (some "sig") [1] 0 ⟨[], []⟩).resp = .thrown
    ∧ HResp.thrown ≠ HResp.badSignature
    ∧ statusCode .thrown = none := by
  refine ⟨rfl, by decide, rfl⟩

/-- Claim C8 as amended: a missing signature header is treated as a
verification failure (400, store untouched), but a missing shared secret
makes the HMAC computation throw — an unhandled fault with no response
(and no store mutation) instead of a verification failure. -/
theorem claim_C8_missing_header_vs_secret
    (p : List Nat → Option WebhookBody) (f : String → Except Unit FetchedLink)
    (s : String) (sig : Option String) (rawBody : List Nat) (now : Nat)
    (store : Store) :
    razorpayWebhook p f (some s) none rawBody now store
      = { resp := .badSignature, store := store }
    ∧ statusCode HResp.badSignature = some 400
    ∧ razorpayWebhook p f none sig rawBody now store
      = { resp := .thrown, store := store }
    ∧ statusCode HResp.thrown = none := by
  have hv : verifySignature s rawBody none = false := by
    simp [verifySignature]
  exact ⟨by simp [razorpayWebhook, hv], rfl, rfl, rfl⟩

/-- A trustworthy extracted email (non-empty, without the placeholder
domain) never triggers the API fallback. -/
theorem fallbackCond_false_of_trust {e : String} (hne : e ≠ "")
    (htrust : jsIncludes e "razorpay.com" = false) (linkId : Option String) :
    fallbackCond (some e) linkId = false := by
  simp [fallbackCond, truthy, jsIncludesOpt, hne, htrust]

/-- When the fallback guard fails, the email passes through unchanged,
whatever the remote API would have answered. -/
theorem resolveEmail_of_cond_false (f : String → Except Unit FetchedLink)
    {email0 linkId : Option String} (h : fallbackCond email0 linkId = false) :
    resolveEmail f email0 linkId = email0 := by
  simp [resolveEmail, h]

/-- Claim C1: for a verified, parsed `payment_link.paid` event carrying a
trustworthy email and a defined amount, classification is by exact equality
on the amount: 7900 upserts the timed `PaidUser` record, 4900 appends an
`EmergencyUnlock` record, and any other amount writes nothing — while the
webhook answers `{status:"ok"}` in all three cases. -/
theorem claim_C1_amount_classification
    (parse : List Nat → Option WebhookBody) (fetch : String → Except Unit FetchedLink)
    (s : String) (rawBody : List Nat) (now : Nat) (store : Store)
    (body : WebhookBody) (pl : Payload) (e : String) (a : Int)
    (hparse : parse rawBody = some body)
    (hev : body.event = some "payment_link.paid")
    (hpl : body.payload = some pl)
    (hemail : extractEmail pl = some e)
    (hne : e ≠ "")
    (htrust : jsIncludes e "razorpay.com" = false)
    (hamt : extractAmount pl = some a) :
    (a = 7900 →
      razorpayWebhook parse fetch (some s) (some (hmacSha256Hex s rawBody)) rawBody now store
        = ⟨.ok, ⟨upsertPaidUser store.paidUsers (jsTrim (jsToLower e)) now
            (now + 30 * 24 * 60 * 60 * 1000) 7900, store.emergencyUnlocks⟩⟩)
    ∧ (a = 4900 →
      razorpayWebhook parse fetch (some s) (some (hmacSha256Hex s rawBody)) rawBody now store
        = ⟨.ok, ⟨store.paidUsers, store.emergencyUnlocks ++
            [⟨jsTrim (jsToLower e), 4900, now⟩]⟩⟩)
    ∧ (a ≠ 7900 → a ≠ 4900 →
      razorpayWebhook parse fetch (some s) (some (hmacSha256Hex s rawBody)) rawBody now store
        = ⟨.ok, store⟩) := by
  have hv : verifySignature s rawBody (some (hmacSha256Hex s rawBody)) = true := by
    simp [verifySignature]
  have hred : razorpayWebhook parse fetch (some s) (some (hmacSha256Hex s rawBody))
      rawBody now store = processPaid fetch pl now store := by
    simp [razorpayWebhook, hv, hparse, handleEvent, hev, hpl]
  have hres : resolveEmail fetch (some e) (extractLinkId pl) = some e :=
    resolveEmail_of_cond_false fetch (fallbackCond_false_of_trust hne htrust _)
  refine ⟨?_, ?_, ?_⟩
  · intro ha
    subst ha
    rw [hred]
    simp [processPaid, hres, hemail, hamt, truthy, jsIncludesOpt, hne, htrust]
  · intro ha
    subst ha
    rw [hred]
    simp [processPaid, hres, hemail, hamt, truthy, jsIncludesOpt, hne, htrust,
      emergencyCreate]
  · intro h79 h49
    rw [hred]
    simp [processPaid, hres, hemail, hamt, truthy, jsIncludesOpt, hne, htrust,
      h79, h49]

/-- Witness for C1: the three classification branches at concrete verified
events (amounts 7900, 4900 and 123 paise). -/
theorem claim_C1_witness :
    razorpayWebhook
        (fun _ => some ⟨some "payment_link.paid",
          some ⟨some ⟨some "Buyer@X.com", some 7900, some "pay_1"⟩, none⟩⟩)
        (fun _ => .error ()) (some "sec") (some (hmacSha256Hex "sec" [123]))
        [123] 11 ⟨[], []⟩
      = ⟨.ok, ⟨[⟨"buyer@x.com", 11, some 2592000011, 7900⟩], []⟩⟩
    ∧ razorpayWebhook
        (fun _ => some ⟨some "payment_link.paid",
          some ⟨some ⟨some "Buyer@X.com", some 4900, some "pay_1"⟩, none⟩⟩)
        (fun _ => .error ()) (some "sec") (some (hmacSha256Hex "sec" [123]))
        [123] 11 ⟨[], []⟩
      = ⟨.ok, ⟨[], [⟨"buyer@x.com", 4900, 11⟩]⟩⟩
    ∧ razorpayWebhook
        (fun _ => some ⟨some "payment_link.paid",
          some ⟨some ⟨some "Buyer@X.com", some 123, some "pay_1"⟩, none⟩⟩)
        (fun _ => .error ()) (some "sec") (some (hmacSha256Hex "sec" [123]))
        [123] 11 ⟨[], []⟩
      = ⟨.ok, ⟨[], []⟩⟩ := by
  refine ⟨?_, ?_, ?_⟩
  · have h := claim_C1_amount_classification
      (fun _ => some ⟨some "payment_link.paid",
        some ⟨some ⟨some "Buyer@X.com", some 7900, some "pay_1"⟩, none⟩⟩)
      (fun _ => .error ()) "sec" [123] 11 ⟨[], []⟩
      ⟨some "payment_link.paid", some ⟨some ⟨some "Buyer@X.com", some 7900, some "pay_1"⟩, none⟩⟩
      ⟨some ⟨some "Buyer@X.com", some 7900, some "pay_1"⟩, none⟩
      "Buyer@X.com" 7900 rfl rfl rfl (by decide) (by decide) (by decide) rfl
    exact (h.1 rfl).trans (by decide)
  · have h := claim_C1_amount_classification
      (fun _ => some ⟨some "payment_link.paid",
        some ⟨some ⟨some "Buyer@X.com", some 4900, some "pay_1"⟩, none⟩⟩)
      (fun _ => .error ()) "sec" [123] 11 ⟨[], []⟩
      ⟨some "payment_link.paid", some ⟨some ⟨some "Buyer@X.com", some 4900, some "pay_1"⟩, none⟩⟩
      ⟨some ⟨some "Buyer@X.com", some 4900, some "pay_1"⟩, none⟩
      "Buyer@X.com" 4900 rfl rfl rfl (by decide) (by decide) (by decide) rfl
    exact (h.2.1 rfl).trans (by decide)
  · have h := claim_C1_amount_classification
      (fun _ => some ⟨some "payment_link.paid",
        some ⟨some ⟨some "Buyer@X.com", some 123, some "pay_1"⟩, none⟩⟩)
      (fun _ => .error ()) "sec" [123] 11 ⟨[], []⟩
      ⟨some "payment_link.paid", some ⟨some ⟨some "Buyer@X.com", some 123, some "pay_1"⟩, none⟩⟩
      ⟨some ⟨some "Buyer@X.com", some 123, some "pay_1"⟩, none⟩
      "Buyer@X.com" 123 rfl rfl rfl (by decide) (by decide) (by decide) rfl
    exact h.2.2 (by decide) (by decide)

/-- Replace the `amount` field of the payment-link entity (a payload location
the handler must ignore). -/
def setLinkAmount (pl : Payload) (v : Option Int) : Payload :=
  { pl with payment_link := pl.payment_link.map (fun le => { le with amount := v }) }

/-- Claim C3: the extracted email is the first non-empty value among the
payment entity's email, the payment link's customer email and the payment
link's top-level email, in that order (none truthy → `null`); the amount is
read only from the payment entity — changing a link-level amount field
cannot affect the outcome — and an absent amount means no store write while
the event is still acknowledged. -/
theorem claim_C3_extraction_and_amount
    (fetch : String → Except Unit FetchedLink) (pl : Payload)
    (now : Nat) (store : Store) :
    (truthy (pl.payment.bind (fun p => p.email)) = true →
      extractEmail pl = pl.payment.bind (fun p => p.email))
    ∧ (truthy (pl.payment.bind (fun p => p.email)) = false →
       truthy (pl.payment_link.bind (fun le => le.customer.bind (fun c => c.email))) = true →
      extractEmail pl = pl.payment_link.bind (fun le => le.customer.bind (fun c => c.email)))
    ∧ (truthy (pl.payment.bind (fun p => p.email)) = false →
       truthy (pl.payment_link.bind (fun le => le.customer.bind (fun c => c.email))) = false →
       truthy (pl.payment_link.bind (fun le => le.email)) = true →
      extractEmail pl = pl.payment_link.bind (fun le => le.email))
    ∧ (truthy (pl.payment.bind (fun p => p.email)) = false →
       truthy (pl.payment_link.bind (fun le => le.customer.bind (fun c => c.email))) = false →
       truthy (pl.payment_link.bind (fun le => le.email)) = false →
      extractEmail pl = none)
    ∧ (∀ v : Option Int,
      extractAmount (setLinkAmount pl v) = extractAmount pl
      ∧ processPaid fetch (setLinkAmount pl v) now store = processPaid fetch pl now store)
    ∧ (extractAmount pl = none →
      processPaid fetch pl now store = ⟨.ok, store⟩) := by
  refine ⟨?_, ?_, ?_, ?_, ?_, ?_⟩
  · intro h1
    simp [extractEmail, jsOr, h1]
  · intro h1 h2
    simp [extractEmail, jsOr, h1, h2]
  · intro h1 h2 h3
    simp [extractEmail, jsOr, h1, h2, h3]
  · intro h1 h2 h3
    simp [extractEmail, jsOr, h1, h2, h3]
  · intro v
    obtain ⟨pay, plink⟩ := pl
    cases plink with
    | none => exact ⟨rfl, rfl⟩
    | some le =>
      obtain ⟨cust, em, id, amt⟩ := le
      exact ⟨rfl, rfl⟩
  · intro h
    simp [processPaid, h]

/-- Witness for C3: the second-priority path wins over a present-but-empty
payment-entity email, and a missing amount yields an acknowledged no-op. -/
theorem claim_C3_witness :
    extractEmail ⟨some ⟨some "", some 7900, none⟩,
        some ⟨some ⟨some "Cust@X.com"⟩, some "link@x.com", some "plink_2", some 1⟩⟩
      = some "Cust@X.com"
    ∧ processPaid (fun _ => .error ()) ⟨some ⟨some "a@b.c", none, none⟩, none⟩ 3 ⟨[], []⟩
      = ⟨.ok, ⟨[], []⟩⟩ := by
  constructor
  · have h := claim_C3_extraction_and_amount (fun _ => .error ())
      ⟨some ⟨some "", some 7900, none⟩,
        some ⟨some ⟨some "Cust@X.com"⟩, some "link@x.com", some "plink_2", some 1⟩⟩ 0 ⟨[], []⟩
    exact (h.2.1 (by decide) (by decide)).trans (by decide)
  · have h := claim_C3_extraction_and_amount (fun _ => .error ())
      ⟨some ⟨some "a@b.c", none, none⟩, none⟩ 3 ⟨[], []⟩
    exact h.2.2.2.2.2 (by decide)

/-- Claim C5: the remote identity fallback runs exactly when the extracted
email is absent or untrustworthy and a link reference is present — when the
guard fails the outcome is independent of the remote API; and a failing
fetch is non-fatal: the webhook still answers `{status:"ok"}` with no store
write (the identity is then still untrustworthy), while a successful fetch
substitutes the fetched customer email and processing continues with it. -/
theorem claim_C5_fallback_scope_and_nonfatal
    (pl : Payload) (now : Nat) (store : Store) :
    (fallbackCond (extractEmail pl) (extractLinkId pl) = false →
      ∀ f1 f2 : String → Except Unit FetchedLink,
        processPaid f1 pl now store = processPaid f2 pl now store)
    ∧ (fallbackCond (extractEmail pl) (extractLinkId pl) = true →
      processPaid (fun _ => .error ()) pl now store = ⟨.ok, store⟩)
    ∧ (fallbackCond (extractEmail pl) (extractLinkId pl) = true →
      ∀ e2 : String, e2 ≠ "" → jsIncludes e2 "razorpay.com" = false →
        extractAmount pl = some 7900 →
        processPaid (fun _ => .ok ⟨some ⟨some e2⟩⟩) pl now store
          = ⟨.ok, ⟨upsertPaidUser store.paidUsers (jsTrim (jsToLower e2)) now
              (now + 30 * 24 * 60 * 60 * 1000) 7900, store.emergencyUnlocks⟩⟩) := by
  refine ⟨?_, ?_, ?_⟩
  · intro hc f1 f2
    simp [processPaid, resolveEmail, hc]
  · intro hc
    have hlid : ∃ lid, extractLinkId pl = some lid := by
      have h2 : truthy (extractLinkId pl) = true := (Bool.and_eq_true _ _ ▸ hc).2
      cases hzl : extractLinkId pl with
      | none => rw [hzl] at h2; simp [truthy] at h2
      | some lid => exact ⟨lid, rfl⟩
    obtain ⟨lid, hlid⟩ := hlid
    have huntrust : (!(truthy (extractEmail pl))
        || jsIncludesOpt (extractEmail pl) "razorpay.com") = true :=
      (Bool.and_eq_true _ _ ▸ hc).1
    have hres : resolveEmail (fun _ => .error ()) (extractEmail pl) (extractLinkId pl)
        = extractEmail pl := by
      simp [resolveEmail, hc, hlid]
    have hguard : (truthy (extractEmail pl)
        && !(jsIncludesOpt (extractEmail pl) "razorpay.com")
        && (extractAmount pl).isSome) = false := by
      rcases Bool.or_eq_true _ _ |>.mp huntrust with h | h
      · have : truthy (extractEmail pl) = false := by
          cases htr : truthy (extractEmail pl) with
          | false => rfl
          | true => rw [htr] at h; simp at h
        simp [this]
      · simp [h]
    simp [processPaid, hres, hguard]
  · intro hc e2 hne htrust hamt
    have hlid : ∃ lid, extractLinkId pl = some lid := by
      have h2 : truthy (extractLinkId pl) = true := (Bool.and_eq_true _ _ ▸ hc).2
      cases hzl : extractLinkId pl with
      | none => rw [hzl] at h2; simp [truthy] at h2
      | some lid => exact ⟨lid, rfl⟩
    obtain ⟨lid, hlid⟩ := hlid
    rw [hlid] at hc
    have hres : resolveEmail (fun _ => .ok ⟨some ⟨some e2⟩⟩) (extractEmail pl)
        (extractLinkId pl) = some e2 := by
      simp [resolveEmail, hc, hlid, jsOr, truthy, hne]
    simp [processPaid, hres, hamt, truthy, jsIncludesOpt, hne, htrust]

/-- Witness for C5: a trustworthy email makes the outcome fetch-independent;
with a missing email the failing fetch is non-fatal, and a successful fetch
substitutes the fetched address (scenario D of the spec). -/
theorem claim_C5_witness :
    processPaid (fun _ => .error ())
        ⟨some ⟨some "a@b.c", some 7900, none⟩, some ⟨none, none, some "plink_9", none⟩⟩ 4 ⟨[], []⟩
      = processPaid (fun _ => .ok ⟨some ⟨some "other@x.com"⟩⟩)
        ⟨some ⟨some "a@b.c", some 7900, none⟩, some ⟨none, none, some "plink_9", none⟩⟩ 4 ⟨[], []⟩
    ∧ processPaid (fun _ => .error ())
        ⟨some ⟨none, some 7900, none⟩, some ⟨none, none, some "plink_9", none⟩⟩ 4 ⟨[], []⟩
      = ⟨.ok, ⟨[], []⟩⟩
    ∧ processPaid (fun _ => .ok ⟨some ⟨some "Found@X.com"⟩⟩)
        ⟨some ⟨none, some 7900, none⟩, some ⟨none, none, some "plink_9", none⟩⟩ 4 ⟨[], []⟩
      = ⟨.ok, ⟨[⟨"found@x.com", 4, some 2592000004, 7900⟩], []⟩⟩ := by
  refine ⟨?_, ?_, ?_⟩
  · exact (claim_C5_fallback_scope_and_nonfatal
      ⟨some ⟨some "a@b.c", some 7900, none⟩, some ⟨none, none, some "plink_9", none⟩⟩
      4 ⟨[], []⟩).1 (by decide) _ _
  · exact (claim_C5_fallback_scope_and_nonfatal
      ⟨some ⟨none, some 7900, none⟩, some ⟨none, none, some "plink_9", none⟩⟩
      4 ⟨[], []⟩).2.1 (by decide)
  · exact ((claim_C5_fallback_scope_and_nonfatal
      ⟨some ⟨none, some 7900, none⟩, some ⟨none, none, some "plink_9", none⟩⟩
      4 ⟨[], []⟩).2.2 (by decide) "Found@X.com" (by decide) (by decide) rfl).trans
      (by decide)

/-- Number of timed-entitlement records held for an email. -/
def countEmail (l : List PaidUserRec) (e : String) : Nat :=
  (l.filter (fun r => r.email = e)).length

/-- Claim C6: the timed upsert is idempotent per email — upserting for the
same email at `t1` and then at `t2` leaves exactly one record for that
email, with `paidAt = t2` and `expiresAt = t2 + 30` days: the window is
reset, never stacked. The hypothesis is the uniqueness invariant of the
collection (`email` is a unique key). -/
theorem claim_C6_timed_upsert_idempotent
    (l : List PaidUserRec) (e : String) (t1 t2 : Nat) (a : Int)
    (h : countEmail l e ≤ 1) :
    (upsertPaidUser (upsertPaidUser l e t1 (t1 + 30 * 24 * 60 * 60 * 1000) a)
        e t2 (t2 + 30 * 24 * 60 * 60 * 1000) a).filter (fun r => r.email = e)
      = [{ email := e, paidAt := t2,
           expiresAt := some (t2 + 30 * 24 * 60 * 60 * 1000), amount := a }] := by
  induction l with
  | nil => simp [upsertPaidUser]
  | cons r rs ih =>
    by_cases hr : r.email = e
    · have hcount : countEmail rs e = 0 := by
        have : countEmail (r :: rs) e = countEmail rs e + 1 := by
          simp [countEmail, hr]
        omega
      have hfe : rs.filter (fun r => r.email = e) = [] :=
        List.length_eq_zero.mp hcount
      simp [upsertPaidUser, hr, hfe]
    · have hcount : countEmail (r :: rs) e = countEmail rs e := by
        simp [countEmail, hr]
      rw [hcount] at h
      simp [upsertPaidUser, hr, ih h]

/-- Witness for C6 on a concrete one-record store. -/
theorem claim_C6_witness :
    (upsertPaidUser (upsertPaidUser [⟨"z@z.z", 0, none, 1⟩] "a@b.c" 5
        (5 + 30 * 24 * 60 * 60 * 1000) 7900) "a@b.c" 9
        (9 + 30 * 24 * 60 * 60 * 1000) 7900).filter (fun r => r.email = "a@b.c")
      = [{ email := "a@b.c", paidAt := 9,
           expiresAt := some (9 + 30 * 24 * 60 * 60 * 1000), amount := 7900 }] :=
  claim_C6_timed_upsert_idempotent [⟨"z@z.z", 0, none, 1⟩] "a@b.c" 5 9 7900 (by decide)

/-- Claim C7: the timed-status endpoint never mutates the store, and for a
non-empty normalized email: no record → `pending`; a record whose
`expiresAt` is before the query-time clock → `expired`; otherwise → `paid`
carrying the record's `expiresAt`. -/
theorem claim_C7_status_read_semantics
    (store : Store) (raw : String) (now : Nat) :
    ((checkPaymentStatus store (some raw) now).2 = store)
    ∧ ((checkPaymentStatus store none now).2 = store)
    ∧ (jsTrim (jsToLower raw) ≠ "" →
       ((findPaidUser store.paidUsers (jsTrim (jsToLower raw)) = none →
          (checkPaymentStatus store (some raw) now).1 = .pending)
        ∧ (∀ u x, findPaidUser store.paidUsers (jsTrim (jsToLower raw)) = some u →
             u.expiresAt = some x → x < now →
             (checkPaymentStatus store (some raw) now).1 = .expired)
        ∧ (∀ u, findPaidUser store.paidUsers (jsTrim (jsToLower raw)) = some u →
             (∀ x, u.expiresAt = some x → ¬ x < now) →
             (checkPaymentStatus store (some raw) now).1 = .paid u.expiresAt))) := by
  refine ⟨?_, rfl, ?_⟩
  · unfold checkPaymentStatus
    dsimp only
    split
    · rfl
    · split
      · rfl
      · split
        · rfl
        · rfl
  · intro hne
    refine ⟨?_, ?_, ?_⟩
    · intro hfind
      simp [checkPaymentStatus, hne, hfind]
    · intro u x hfind hx hlt
      simp [checkPaymentStatus, hne, hfind, hx, hlt]
    · intro u hfind hforall
      cases hx : u.expiresAt with
      | none => simp [checkPaymentStatus, hne, hfind, hx]
      | some x =>
        have hnl := hforall x hx
        simp [checkPaymentStatus, hne, hfind, hx, hnl]

/-- Witness for C7: pending on an empty store, expired past `expiresAt`
(with query-side normalization), paid before it, and the store unchanged. -/
theorem claim_C7_witness :
    (checkPaymentStatus ⟨[], []⟩ (some "q@w.e") 5).1 = .pending
    ∧ (checkPaymentStatus ⟨[⟨"a@b.c", 0, some 10, 7900⟩], []⟩ (some " A@B.C ") 11).1
      = .expired
    ∧ (checkPaymentStatus ⟨[⟨"a@b.c", 0, some 10, 7900⟩], []⟩ (some "a@b.c") 9).1
      = .paid (some 10)
    ∧ (checkPaymentStatus ⟨[⟨"a@b.c", 0, some 10, 7900⟩], []⟩ (some " A@B.C ") 11).2
      = ⟨[⟨"a@b.c", 0, some 10, 7900⟩], []⟩ := by
  refine ⟨?_, ?_, ?_, ?_⟩
  · exact ((claim_C7_status_read_semantics ⟨[], []⟩ "q@w.e" 5).2.2
      (by decide)).1 (by decide)
  · exact ((claim_C7_status_read_semantics ⟨[⟨"a@b.c", 0, some 10, 7900⟩], []⟩
      " A@B.C " 11).2.2 (by decide)).2.1 ⟨"a@b.c", 0, some 10, 7900⟩ 10
      (by decide) rfl (by decide)
  · exact (((claim_C7_status_read_semantics ⟨[⟨"a@b.c", 0, some 10, 7900⟩], []⟩
      "a@b.c" 9).2.2 (by decide)).2.2 ⟨"a@b.c", 0, some 10, 7900⟩
      (by decide) (by decide)).trans (by decide)
  · exact (claim_C7_status_read_semantics ⟨[⟨"a@b.c", 0, some 10, 7900⟩], []⟩
      " A@B.C " 11).1

/-- Claim C9 fails on the code: `EmergencyUnlock.create` is called with
`used:false` (and `status:"paid"`), but `EmergencySchema` declares only
`email`, `amount` and `paidAt`, so mongoose strict mode drops the flag —
the persisted record is independent of the passed `used` value and carries
no used/consumed field. The concrete 4900 event shows the stored record. -/
theorem claim_C9_used_flag_not_persisted :
    (∀ (l : List EmergencyRec) (args : EmergencyCreateArgs) (now : Nat) (b : Bool) (st : String),
      emergencyCreate l { args with used := b, status := st } now = emergencyCreate l args now)
    ∧ processPaid (fun _ => .error ())
        ⟨some ⟨some "x@y.z", some 4900, some "pay_7"⟩, none⟩ 77 ⟨[], []⟩
      = ⟨.ok, ⟨[], [{ email := "x@y.z", amount := 4900, paidAt := 77 }]⟩⟩ := by
  exact ⟨fun l args now b st => rfl, by decide⟩

/-- Claim C10: the placeholder-domain guard is case-sensitive and runs before
lowercasing — `"USER@RAZORPAY.COM"` does not contain the lowercase substring
`"razorpay.com"`, so it passes both the fallback guard and the save guard,
and a timed record is persisted under `"user@razorpay.com"`, an address
that does contain the placeholder domain. -/
theorem claim_C10_case_sensitive_guard :
    jsIncludes "USER@RAZORPAY.COM" "razorpay.com" = false
    ∧ fallbackCond (some "USER@RAZORPAY.COM") (some "plink_8") = false
    ∧ processPaid (fun _ => .error ())
        ⟨some ⟨some "USER@RAZORPAY.COM", some 7900, some "pay_8"⟩, none⟩ 5 ⟨[], []⟩
      = ⟨.ok, ⟨[{ email := "user@razorpay.com", paidAt := 5,
                  expiresAt := some (5 + 30 * 24 * 60 * 60 * 1000),
                  amount := 7900 }], []⟩⟩
    ∧ jsIncludes "user@razorpay.com" "razorpay.com" = true := by
  exact ⟨by decide, by decide, by decide, by decide⟩
